import Mathlib

/-!
Formal model of the Kenya map visualization scripts (scripts.js and the
unnamed variant part_000): polygon rejection sampling, record placement,
region and year inference, year/county filtering, radius scaling, and the
county zoom state machine.
-/

namespace KillingsKE

/-! ## String utilities (JS String.includes, Array.find, parseInt) -/

/-- Whether `needle` occurs at the front of `hay` (character lists). -/
def matchesFront : List Char → List Char → Bool
  | _, [] => true
  | [], _ :: _ => false
  | h :: hs, n :: ns => (h == n) && matchesFront hs ns

/-- Whether `needle` occurs anywhere inside `hay` (character lists). -/
def containsSub : List Char → List Char → Bool
  | [], needle => needle.isEmpty
  | h :: hs, needle => matchesFront (h :: hs) needle || containsSub hs needle

/-- JS `hay.includes(needle)` on strings. -/
def strIncludes (hay needle : String) : Bool :=
  containsSub hay.data needle.data

/-- JS `Array.prototype.find`: the first element satisfying the predicate. -/
def jsFind {α : Type} (p : α → Bool) : List α → Option α
  | [] => none
  | x :: xs => if p x then some x else jsFind p xs

/-- JS `s.toLowerCase()` on the ASCII data used here: lowercase every
character. -/
def jsToLower (s : String) : String :=
  String.mk (s.data.map Char.toLower)

/-- JS `s.charAt(0).toUpperCase() + s.slice(1)`. -/
def capFirst (s : String) : String :=
  match s.data with
  | [] => ""
  | c :: cs => String.mk (c.toUpper :: cs)

/-- JS `parseInt` on the strings used here: parses a leading run of decimal
digits, `none` (NaN) when the string does not start with a digit. -/
def parseIntNat (s : String) : Option Nat :=
  let ds := s.data.takeWhile Char.isDigit
  if ds.isEmpty then none
  else some (ds.foldl (fun a c => 10 * a + (c.toNat - 48)) 0)

/-! ## Year extraction

scripts.js `extractYear` matches the regex `\b(20\d{2})\b` and parses the
captured group; part_000 `extractTheYear` looks for one of the configured
year strings as a substring of the incident date. -/

/-- JS regex word character (`\w`): ASCII letter, digit or underscore. -/
def isWordChar (c : Char) : Bool :=
  c.isAlphanum || c == '_'

/-- Whether the regex `\b20\d{2}\b` matches the character list at index `i`. -/
def matchAtB (cs : List Char) (i : Nat) : Bool :=
  (cs[i]? == some '2') && (cs[i + 1]? == some '0') &&
  (match cs[i + 2]? with | some c => c.isDigit | none => false) &&
  (match cs[i + 3]? with | some c => c.isDigit | none => false) &&
  (match i with
   | 0 => true
   | j + 1 => match cs[j]? with | some c => !isWordChar c | none => true) &&
  (match cs[i + 4]? with | some c => !isWordChar c | none => true)

/-- The numeric value `parseInt` gives for the four characters starting at
`i` when they are `2 0 d1 d2`. -/
def yearValAt (cs : List Char) (i : Nat) : Option Nat :=
  match cs[i + 2]?, cs[i + 3]? with
  | some d1, some d2 => some (2000 + 10 * (d1.toNat - 48) + (d2.toNat - 48))
  | _, _ => none

/-- Left-to-right scan for the leftmost regex match, as the JS regex engine
performs it. -/
def scanFrom (cs : List Char) : Nat → Nat → Option Nat
  | _, 0 => none
  | i, fuel + 1 => if matchAtB cs i then yearValAt cs i else scanFrom cs (i + 1) fuel

/-- The leftmost `\b20\d{2}\b` match in the character list, if any. -/
def findYearMatch (cs : List Char) : Option Nat :=
  scanFrom cs 0 cs.length

/-- scripts.js `extractYear`: `null` for empty or `"Unknown"` input, else the
year from the first `\b(20\d{2})\b` match, `null` when there is none. -/
def extractYear (s : String) : Option Nat :=
  if s = "" ∨ s = "Unknown" then none
  else findYearMatch s.data

/-- The year strings configured in part_000 (`let years = [...]`). -/
def p0Years : List String := ["2021", "2022", "2023"]

/-- part_000 `extractTheYear`, per entry: the first configured year string
occurring as a substring of the incident date, parsed;
`parseInt(year) || "unknown"` turns a failed find (NaN) or zero into the
unknown sentinel, modelled as `none`. -/
def extractTheYearEntry (years : List String) (date : String) : Option Nat :=
  match jsFind (fun w => strIncludes date w) years with
  | some w =>
    match parseIntNat w with
    | some v => if v = 0 then none else some v
    | none => none
  | none => none

/-! ## Geometry and the rejection samplers -/

/-- A geographic point: longitude and latitude as rationals. -/
abbrev Point := ℚ × ℚ

/-- A county feature as the samplers consume it: the cached geographic
bounding box (`d3.geoBounds`) and the point-in-polygon containment test
(`d3.geoContains`), abstracted as a Boolean predicate on points. -/
structure CountyFeature where
  minX : ℚ
  minY : ℚ
  maxX : ℚ
  maxY : ℚ
  geoContains : Point → Bool

/-- The candidate drawn at a given attempt:
`x = minX + Math.random() * (maxX - minX)` and likewise for `y`; the stream
`rng` supplies the successive `Math.random()` values, two per attempt. -/
def candidate (f : CountyFeature) (rng : Nat → ℚ) (attempt : Nat) : Point :=
  (f.minX + rng (2 * attempt) * (f.maxX - f.minX),
   f.minY + rng (2 * attempt + 1) * (f.maxY - f.minY))

/-- The while loop of scripts.js `generateRandomPointsInCounty`:
`while (points.length < numPoints && attempts < maxAttempts)`, accepting a
candidate only when `d3.geoContains` holds. `fuel` is the number of attempts
still allowed (`maxAttempts - attempts`). -/
def sampleLoop (f : CountyFeature) (rng : Nat → ℚ) (numPoints : Nat) :
    Nat → Nat → List Point → List Point
  | 0, _, points => points
  | fuel + 1, attempts, points =>
    if points.length < numPoints then
      sampleLoop f rng numPoints fuel (attempts + 1)
        (if f.geoContains (candidate f rng attempts) then
          points ++ [candidate f rng attempts]
        else points)
    else points

/-- scripts.js `generateRandomPointsInCounty`: rejection sampling with
`maxAttempts = numPoints * 100`. -/
def generateRandomPointsInCounty (f : CountyFeature) (numPoints : Nat)
    (rng : Nat → ℚ) : List Point :=
  sampleLoop f rng numPoints (numPoints * 100) 0 []

/-- The do-while loop of part_000 `randomPointInCounty`: draw candidates
until one passes `d3.geoContains`. The source loop has no attempt cap, so the
embedding is fuelled: `none` means the loop is still running after `fuel`
attempts. -/
def randomPointLoop (f : CountyFeature) (rng : Nat → ℚ) :
    Nat → Nat → Option Point
  | 0, _ => none
  | fuel + 1, attempt =>
    if f.geoContains (candidate f rng attempt) then some (candidate f rng attempt)
    else randomPointLoop f rng fuel (attempt + 1)

/-- part_000 `randomPointInCounty`, fuelled as explained above. -/
def randomPointInCounty (f : CountyFeature) (rng : Nat → ℚ) (fuel : Nat) :
    Option Point :=
  randomPointLoop f rng fuel 0

/-- All accepted candidates among `fuel` consecutive attempts starting at
`attempt`: what the rejection loop collects when it never stops early. -/
def acceptedFrom (f : CountyFeature) (rng : Nat → ℚ) : Nat → Nat → List Point
  | _, 0 => []
  | attempt, fuel + 1 =>
    if f.geoContains (candidate f rng attempt) then
      candidate f rng attempt :: acceptedFrom f rng (attempt + 1) fuel
    else acceptedFrom f rng (attempt + 1) fuel

/-! ## Victim records and filtering (scripts.js) -/

/-- A victim record as scripts.js consumes it (`""` stands for a missing or
empty string field, `none` for an absent numeric `Year`). -/
structure VRecord where
  Name : String
  Location : String
  County : String
  DateOfIncident : String
  Year : Option Nat
  deriving DecidableEq

/-- scripts.js `d.Year || extractYear(d["Date of Incident"])`: the `Year`
field when present and truthy (nonzero), else the year extracted from the
date text. -/
def victimYear (d : VRecord) : Option Nat :=
  match d.Year with
  | some y => if y = 0 then extractYear d.DateOfIncident else some y
  | none => extractYear d.DateOfIncident

/-- The year predicate of scripts.js `filterDataByYearAndCounty`:
`victimYear === parseInt(year)` (strict equality, so the `null` sentinel and
`NaN` never match). -/
def yearMatches (year : String) (d : VRecord) : Bool :=
  match victimYear d, parseIntNat year with
  | some v, some p => v == p
  | _, _ => false

/-- The county predicate of scripts.js `filterDataByYearAndCounty`:
`d.County && d.County.toLowerCase() === county.toLowerCase()`. -/
def countyMatches (county : String) (d : VRecord) : Bool :=
  (!(d.County == "")) && (jsToLower d.County == jsToLower county)

/-- scripts.js `filterDataByYearAndCounty`: filter by year unless the year
selector is `"all"`, then by county unless the county selector is `"all"`. -/
def filterDataByYearAndCounty (data : List VRecord) (year county : String) :
    List VRecord :=
  let fd1 := if year ≠ "all" then data.filter (yearMatches year) else data
  if county ≠ "all" then fd1.filter (countyMatches county) else fd1

/-- The lowercase county-name list scripts.js scans when a record's `County`
is `"Unknown"` (copied verbatim, duplicates included). -/
def scriptsCountyNames : List String :=
  ["nairobi", "mombasa", "kisumu", "nakuru", "eldoret", "thika", "malindi",
   "kitale", "garissa", "kakamega", "kisii", "meru", "nyeri", "machakos",
   "kitui", "embu", "isiolo", "lamu", "kilifi", "kwale", "tana river",
   "taita taveta", "makueni", "kajiado", "narok", "nyamira", "bomet",
   "bungoma", "busia", "vihiga", "siaya", "homa bay", "migori", "kisumu",
   "nyamira", "trans nzoia", "west pokot", "samburu", "turkana", "marsabit",
   "mandera", "wajir", "isiolo", "laikipia", "nyandarua", "nyeri",
   "murang\x27a", "kiambu", "kirinyaga", "nyeri"]

/-- scripts.js county inference: when `person.County === "Unknown"` and the
location text is truthy, scan the county-name list in order and set the
county to the capitalized first name included in the lowercased location. -/
def fixCounty (r : VRecord) : VRecord :=
  if r.County = "Unknown" ∧ r.Location ≠ "" then
    match jsFind (fun c => strIncludes (jsToLower r.Location) c) scriptsCountyNames with
    | some c => { r with County := capFirst c }
    | none => r
  else r

/-! ## Record placement (scripts.js loadData) -/

/-- scripts.js `loadData`: `victims.forEach((victim, index) => { if (index <
randomPoints.length) push({...victim, position: randomPoints[index]}) })` —
pair each record with the sampled point of the same index, dropping records
beyond the sampled count. -/
def assignPositions {α : Type} : List α → List Point → List (α × Point)
  | [], _ => []
  | _ :: _, [] => []
  | v :: vs, p :: ps => (v, p) :: assignPositions vs ps

/-- scripts.js `loadData` fallback branch: each record of an unresolvable
partition individually receives `generateRandomPointsInCounty(nairobi, 1)[0]`
(`none` when that sampler call returns no point); `rngs i` is the random
stream consumed for the i-th record. -/
def placeFallback {α : Type} (nf : CountyFeature) (rngs : Nat → Nat → ℚ) :
    Nat → List α → List (α × Option Point)
  | _, [] => []
  | i, v :: vs =>
    (v, (generateRandomPointsInCounty nf 1 (rngs i)).head?) ::
      placeFallback nf rngs (i + 1) vs

/-- scripts.js `loadData`, placement of one county partition: resolve the
county in the map and batch-sample one point per record; when the lookup
fails, fall back to the `"nairobi"` entry and sample per record. -/
def placePartition {α : Type} (countyMap : String → Option CountyFeature)
    (rngB : Nat → ℚ) (rngs : Nat → Nat → ℚ) (countyName : String)
    (victims : List α) : List (α × Option Point) :=
  match countyMap countyName with
  | some f =>
    (assignPositions victims (generateRandomPointsInCounty f victims.length rngB)).map
      (fun vp => (vp.1, some vp.2))
  | none =>
    match countyMap "nairobi" with
    | some nf => placeFallback nf rngs 0 victims
    | none => []

/-! ## part_000: records, pipeline and rendering filter -/

/-- A record as part_000 consumes it, after its county/year extraction steps
have populated `county` and `year`; `randomPoint` is the placement slot. -/
structure P0Rec where
  Name : String
  Location : String
  MannerOfDeath : String
  county : String
  year : Option Nat
  randomPoint : Option Point
  deriving DecidableEq

/-- part_000 `extractAndAppendCounty`, per entry: the first county name in
the list whose lowercase form the lowercased location includes, else
`"unknown"`. -/
def extractAndAppendCountyEntry (names : List String) (location : String) :
    String :=
  match jsFind (fun n => strIncludes (jsToLower location) (jsToLower n)) names with
  | some c => c
  | none => "unknown"

/-- The canonical county-name list of part_000 (copied verbatim). -/
def p0CountyNames : List String :=
  ["Baringo", "Bomet", "Bungoma", "Busia", "Elgeyo-Marakwet", "Embu",
   "Garissa", "Homa Bay", "Isiolo", "Kajiado", "Kakamega", "Kericho",
   "Kiambu", "Kilifi", "Kirinyaga", "Kisii", "Kisumu", "Kitui", "Kwale",
   "Laikipia", "Lamu", "Machakos", "Makueni", "Mandera", "Marsabit", "Meru",
   "Migori", "Mombasa", "Murang\x27a", "Nairobi", "Nakuru", "Nandi",
   "Narok", "Nyamira", "Nyandarua", "Nyeri", "Samburu", "Siaya",
   "Taita-Taveta", "Tana River", "Tharaka-Nithi", "Trans Nzoia", "Turkana",
   "Uasin Gishu", "Vihiga", "Wajir", "West Pokot"]

/-- part_000 line 243: drop records whose county stayed `"unknown"` (and the
not-confirmed-dead outcome categories) before any placement happens. -/
def p0FilterUnknown (data : List P0Rec) : List P0Rec :=
  data.filter fun d =>
    (!(d.county == "unknown")) &&
    (!(d.MannerOfDeath == "MISSING THEN FOUND")) &&
    (!(d.MannerOfDeath == "MISSING"))

/-- part_000 lines 269-276: for each record, look its county up in the map
and, when found, attach `randomPointInCounty`; records whose county has no
map entry are left untouched (no placement). `rngs i` is the random stream
for the i-th record and `fuel` bounds the fuelled sampler. -/
def p0AddRandomPoints (countyMap : String → Option CountyFeature)
    (rngs : Nat → Nat → ℚ) (fuel : Nat) : Nat → List P0Rec → List P0Rec
  | _, [] => []
  | i, d :: ds =>
    (match countyMap (jsToLower d.county) with
     | some f => { d with randomPoint := randomPointInCounty f (rngs i) fuel }
     | none => d) :: p0AddRandomPoints countyMap rngs fuel (i + 1) ds

/-- part_000 `showPeople`, data selection: filter by year when one is given,
then keep only records that actually carry a `randomPoint`. -/
def showPeopleData (data : List P0Rec) (year : Option Nat) : List P0Rec :=
  let base : List P0Rec :=
    match year with
    | some y => data.filter (fun d => d.year == some y)
    | none => data
  base.filter (fun d => d.randomPoint.isSome)

/-! ## Zoom state machine and radius scaling (part_000) -/

/-- A d3 zoom transform: `zoomIdentity.translate(x, y).scale(k)`. -/
structure ZoomTransform where
  k : ℚ
  x : ℚ
  y : ℚ
  deriving DecidableEq

/-- `d3.zoomIdentity`. -/
def zoomIdentity : ZoomTransform := ⟨1, 0, 0⟩

/-- A county as the click handler sees it: its name and the pixel bounding
box `geoPath.bounds(d)` under the fixed base projection. -/
structure CountyPath where
  shapeName : String
  x0 : ℚ
  y0 : ℚ
  x1 : ℚ
  y1 : ℚ
  deriving DecidableEq

/-- The viewport state of part_000: the currently zoomed county (if any) and
the transform applied to the map group. -/
structure ZoomState where
  currentZoomedCounty : Option String
  transform : ZoomTransform
  deriving DecidableEq

/-- The fit transform part_000 `clicked` computes for a county: center of the
pixel bounding box, scale `max(1, min(mapwidth/w, mapHeight/h) * 0.9)`, and
the translation centering the county. -/
def fitTransform (mapwidth mapHeight : ℚ) (d : CountyPath) : ZoomTransform :=
  let x := (d.x0 + d.x1) / 2
  let y := (d.y0 + d.y1) / 2
  let countyWidth := d.x1 - d.x0
  let countyHeight := d.y1 - d.y0
  let scale := max 1 (min (mapwidth / countyWidth) (mapHeight / countyHeight) * (9 / 10))
  ⟨scale, mapwidth / 2 - x * scale, mapHeight / 2 - y * scale⟩

/-- part_000 `clicked`: re-selecting the currently zoomed county resets to
the identity transform and clears the zoomed county; any other selection
applies that county's fit transform and records it as zoomed. -/
def clicked (mapwidth mapHeight : ℚ) (s : ZoomState) (d : CountyPath) :
    ZoomState :=
  if s.currentZoomedCounty = some d.shapeName then
    { currentZoomedCounty := none, transform := zoomIdentity }
  else
    { currentZoomedCounty := some d.shapeName,
      transform := fitTransform mapwidth mapHeight d }

/-- part_000 `MIN_RADIUS`. -/
def MIN_RADIUS : ℚ := 2

/-- part_000 `MAX_RADIUS`. -/
def MAX_RADIUS : ℚ := 10

/-- part_000 `calculateRadius`: `Math.max(MIN_RADIUS, Math.min(4 / k,
MAX_RADIUS))`. -/
def calculateRadius (k : ℚ) : ℚ :=
  max MIN_RADIUS (min (4 / k) MAX_RADIUS)

/-- Modelled d3 behavior: the zoom gesture's scale clamped to the configured
`scaleExtent([1, 10])` of part_000. -/
def applyScaleExtent (kreq : ℚ) : ℚ :=
  max 1 (min kreq 10)

/-- part_000 `zoomedFn` radius recomputation after a zoom update with
requested scale `kreq`: store the clamped scale in `k`, then recompute
`calculateRadius()`. -/
def zoomedRadius (kreq : ℚ) : ℚ :=
  calculateRadius (applyScaleExtent kreq)

/-! ## Concrete fixtures used by witnesses and counterexamples -/

/-- A random stream that always returns 0. -/
def zeroRng : Nat → ℚ := fun _ => 0

/-- A per-record family of random streams that always return 0. -/
def zeroRng2 : Nat → Nat → ℚ := fun _ _ => 0

/-- A unit-square feature whose containment test accepts every point. -/
def acceptAllFeature : CountyFeature :=
  { minX := 0, minY := 0, maxX := 1, maxY := 1, geoContains := fun _ => true }

/-- A unit-square feature whose containment test rejects every point. -/
def rejectAllFeature : CountyFeature :=
  { minX := 0, minY := 0, maxX := 1, maxY := 1, geoContains := fun _ => false }

/-- A county map holding only the `"nairobi"` entry. -/
def cmapNairobiOnly : String → Option CountyFeature :=
  fun s => if s = "nairobi" then some acceptAllFeature else none

/-- A county map holding only a `"kisumu"` entry. -/
def cmapKisumuOnly : String → Option CountyFeature :=
  fun s => if s = "kisumu" then some acceptAllFeature else none

/-- A part_000 record whose inferred county stayed `"unknown"`. -/
def unknownCountyRec : P0Rec :=
  ⟨"A", "some place", "SHOT", "unknown", none, none⟩

/-- A part_000 record with a placement. -/
def placedRec : P0Rec :=
  ⟨"B", "nairobi cbd", "SHOT", "Nairobi", some 2022, some (0, 0)⟩

/-- A scripts.js record with unknown county and an Eldoret location. -/
def eldoretRecord : VRecord :=
  ⟨"X", "Eldoret town centre", "Unknown", "", none⟩

/-- A scripts.js record with a known year. -/
def year2022Record : VRecord :=
  ⟨"Y", "nairobi", "Nairobi", "14 March 2022", some 2022⟩

/-- A scripts.js record whose year is the unknown sentinel. -/
def unknownYearRecord : VRecord :=
  ⟨"Z", "nairobi", "Nairobi", "Unknown", none⟩

/-- A generic placed record for witnesses. -/
def vrec0 : VRecord := ⟨"N", "L", "C", "D", none⟩

/-- Concrete counties for the zoom witnesses. -/
def countyA : CountyPath := ⟨"A", 0, 0, 10, 10⟩

/-- A second concrete county for the zoom witnesses. -/
def countyB : CountyPath := ⟨"B", 20, 20, 40, 50⟩

/-- A viewport state focused on county `"A"`. -/
def focusedA : ZoomState := ⟨some "A", zoomIdentity⟩

/-- The overview viewport state. -/
def overviewState : ZoomState := ⟨none, zoomIdentity⟩

/-! ## Helper lemmas -/

theorem head?_mem {α : Type} (l : List α) (x : α) (h : l.head? = some x) :
    x ∈ l := by
  cases l with
  | nil => simp at h
  | cons a as =>
    simp only [List.head?] at h
    injection h with h
    subst h
    exact List.mem_cons_self a as

theorem sampleLoop_mem (f : CountyFeature) (rng : Nat → ℚ) (n : Nat) :
    ∀ (fuel attempts : Nat) (pts : List Point),
      (∀ q ∈ pts, f.geoContains q = true) →
      ∀ q ∈ sampleLoop f rng n fuel attempts pts, f.geoContains q = true := by
  intro fuel
  induction fuel with
  | zero =>
    intro a pts h q hq
    rw [sampleLoop] at hq
    exact h q hq
  | succ fuel ih =>
    intro a pts h q hq
    rw [sampleLoop] at hq
    by_cases hlen : pts.length < n
    · rw [if_pos hlen] at hq
      cases hc : f.geoContains (candidate f rng a) with
      | true =>
        refine ih (a + 1) _ ?_ q (by simpa [hc] using hq)
        intro r hr
        rcases List.mem_append.mp hr with hr | hr
        · exact h r hr
        · rw [List.mem_singleton.mp hr]
          exact hc
      | false => exact ih (a + 1) pts h q (by simpa [hc] using hq)
    · rw [if_neg hlen] at hq
      exact h q hq

theorem generate_mem_contains (f : CountyFeature) (rng : Nat → ℚ) (n : Nat)
    (p : Point) (h : p ∈ generateRandomPointsInCounty f n rng) :
    f.geoContains p = true :=
  sampleLoop_mem f rng n (n * 100) 0 [] (by simp) p h

theorem randomPointLoop_some (f : CountyFeature) (rng : Nat → ℚ) :
    ∀ (fuel a : Nat) (p : Point), randomPointLoop f rng fuel a = some p →
      f.geoContains p = true := by
  intro fuel
  induction fuel with
  | zero => intro a p h; rw [randomPointLoop] at h; exact absurd h (by simp)
  | succ fuel ih =>
    intro a p h
    rw [randomPointLoop] at h
    cases hc : f.geoContains (candidate f rng a) with
    | true =>
      simp only [hc, if_true] at h
      injection h with h
      rw [← h]
      exact hc
    | false =>
      simp only [hc, Bool.false_eq_true, if_false] at h
      exact ih (a + 1) p h

theorem randomPointLoop_none (f : CountyFeature) (rng : Nat → ℚ)
    (hrej : ∀ a, f.geoContains (candidate f rng a) = false) :
    ∀ (fuel a : Nat), randomPointLoop f rng fuel a = none := by
  intro fuel
  induction fuel with
  | zero => intro a; rw [randomPointLoop]
  | succ fuel ih =>
    intro a
    rw [randomPointLoop]
    simp only [hrej a]
    simpa using ih (a + 1)

theorem sampleLoop_length_le (f : CountyFeature) (rng : Nat → ℚ) (n : Nat) :
    ∀ (fuel a : Nat) (pts : List Point), pts.length ≤ n →
      (sampleLoop f rng n fuel a pts).length ≤ n := by
  intro fuel
  induction fuel with
  | zero => intro a pts h; rw [sampleLoop]; exact h
  | succ fuel ih =>
    intro a pts h
    rw [sampleLoop]
    by_cases hlen : pts.length < n
    · rw [if_pos hlen]
      apply ih
      cases hc : f.geoContains (candidate f rng a) with
      | true => simp [hc]; omega
      | false => simpa [hc] using h
    · rw [if_neg hlen]
      exact h

theorem sampleLoop_short (f : CountyFeature) (rng : Nat → ℚ) (n : Nat) :
    ∀ (fuel a : Nat) (pts : List Point),
      (sampleLoop f rng n fuel a pts).length < n →
      sampleLoop f rng n fuel a pts = pts ++ acceptedFrom f rng a fuel := by
  intro fuel
  induction fuel with
  | zero => intro a pts _; rw [sampleLoop, acceptedFrom]; simp
  | succ fuel ih =>
    intro a pts h
    rw [sampleLoop] at h ⊢
    by_cases hlen : pts.length < n
    · rw [if_pos hlen] at h ⊢
      cases hc : f.geoContains (candidate f rng a) with
      | true =>
        simp only [hc, if_pos] at h ⊢
        rw [ih (a + 1) _ h, acceptedFrom]
        simp [hc]
      | false =>
        simp only [hc] at h ⊢
        rw [ih (a + 1) _ (by simpa using h), acceptedFrom]
        simp [hc]
    · rw [if_neg hlen] at h
      exact absurd h hlen

theorem sampleLoop_full (f : CountyFeature) (rng : Nat → ℚ) (n : Nat) :
    ∀ (fuel a : Nat) (pts : List Point), ¬(pts.length < n) →
      sampleLoop f rng n fuel a pts = pts := by
  intro fuel a pts h
  cases fuel with
  | zero => rw [sampleLoop]
  | succ fuel => rw [sampleLoop, if_neg h]

theorem generate_one_accept (f : CountyFeature) (rng : Nat → ℚ)
    (h : f.geoContains (candidate f rng 0) = true) :
    generateRandomPointsInCounty f 1 rng = [candidate f rng 0] := by
  unfold generateRandomPointsInCounty
  rw [show (1 * 100 : Nat) = 99 + 1 from rfl, sampleLoop,
    if_pos (by simp : ([] : List Point).length < 1)]
  simp only [h, if_true, List.nil_append]
  exact sampleLoop_full f rng 1 99 1 [candidate f rng 0] (by simp)

theorem sampleLoop_reject (f : CountyFeature) (rng : Nat → ℚ) (n : Nat)
    (hrej : ∀ a, f.geoContains (candidate f rng a) = false) :
    ∀ (fuel a : Nat) (pts : List Point),
      sampleLoop f rng n fuel a pts = pts := by
  intro fuel
  induction fuel with
  | zero => intro a pts; rw [sampleLoop]
  | succ fuel ih =>
    intro a pts
    rw [sampleLoop]
    by_cases h : pts.length < n
    · rw [if_pos h]
      simp only [hrej a, Bool.false_eq_true, if_false]
      exact ih (a + 1) pts
    · rw [if_neg h]

theorem assignPositions_map_fst {α : Type} :
    ∀ (vs : List α) (ps : List Point),
      (assignPositions vs ps).map Prod.fst = vs.take ps.length := by
  intro vs
  induction vs with
  | nil => intro ps; cases ps <;> simp [assignPositions]
  | cons v vs ih =>
    intro ps
    cases ps with
    | nil => simp [assignPositions]
    | cons p ps => simp [assignPositions, ih ps]

theorem assignPositions_map_snd {α : Type} :
    ∀ (vs : List α) (ps : List Point),
      (assignPositions vs ps).map Prod.snd = ps.take vs.length := by
  intro vs
  induction vs with
  | nil => intro ps; cases ps <;> simp [assignPositions]
  | cons v vs ih =>
    intro ps
    cases ps with
    | nil => simp [assignPositions]
    | cons p ps => simp [assignPositions, ih ps]

theorem assignPositions_mem_snd {α : Type} :
    ∀ (vs : List α) (ps : List Point) (vp : α × Point),
      vp ∈ assignPositions vs ps → vp.2 ∈ ps := by
  intro vs
  induction vs with
  | nil => intro ps vp h; simp [assignPositions] at h
  | cons v vs ih =>
    intro ps vp h
    cases ps with
    | nil => simp [assignPositions] at h
    | cons p ps =>
      rw [assignPositions] at h
      rcases List.mem_cons.mp h with rfl | h2
      · exact List.mem_cons_self p ps
      · exact List.mem_cons_of_mem p (ih ps vp h2)

theorem jsFind_eq_some_first {α : Type} (p : α → Bool) :
    ∀ (l : List α) (x : α), jsFind p l = some x →
      ∃ pre post, l = pre ++ x :: post ∧ p x = true ∧ ∀ y ∈ pre, p y = false := by
  intro l
  induction l with
  | nil => intro x h; simp [jsFind] at h
  | cons a as ih =>
    intro x h
    rw [jsFind] at h
    cases hp : p a with
    | true =>
      simp only [hp, if_true] at h
      injection h with h
      subst h
      exact ⟨[], as, rfl, hp, by simp⟩
    | false =>
      simp only [hp, Bool.false_eq_true, if_false] at h
      rcases ih x h with ⟨pre, post, hl, hx, hpre⟩
      subst hl
      refine ⟨a :: pre, post, rfl, hx, ?_⟩
      intro y hy
      rcases List.mem_cons.mp hy with rfl | hy2
      · exact hp
      · exact hpre y hy2

theorem jsFind_eq_none {α : Type} (p : α → Bool) :
    ∀ (l : List α), (∀ y ∈ l, p y = false) → jsFind p l = none := by
  intro l
  induction l with
  | nil => intro _; rfl
  | cons a as ih =>
    intro h
    rw [jsFind]
    rw [h a (List.mem_cons_self a as)]
    simp only [Bool.false_eq_true, if_false]
    exact ih fun y hy => h y (List.mem_cons_of_mem a hy)

theorem placeFallback_map_fst {α : Type} (nf : CountyFeature)
    (rngs : Nat → Nat → ℚ) :
    ∀ (i : Nat) (vs : List α), (placeFallback nf rngs i vs).map Prod.fst = vs := by
  intro i vs
  induction vs generalizing i with
  | nil => simp [placeFallback]
  | cons v vs ih => simp [placeFallback, ih]

theorem placeFallback_mem_contains {α : Type} (nf : CountyFeature)
    (rngs : Nat → Nat → ℚ) :
    ∀ (i : Nat) (vs : List α) (vp : α × Option Point) (p : Point),
      vp ∈ placeFallback nf rngs i vs → vp.2 = some p →
      nf.geoContains p = true := by
  intro i vs
  induction vs generalizing i with
  | nil => intro vp p h _; simp [placeFallback] at h
  | cons v vs ih =>
    intro vp p h hp
    rw [placeFallback] at h
    rcases List.mem_cons.mp h with rfl | h2
    · simp only at hp
      exact generate_mem_contains nf (rngs i) 1 p (head?_mem _ p hp)
    · exact ih (i + 1) vp p h2 hp

theorem placePartition_resolved {α : Type} (cmap : String → Option CountyFeature)
    (rngB : Nat → ℚ) (rngs : Nat → Nat → ℚ) (name : String)
    (victims : List α) (f : CountyFeature) (h : cmap name = some f) :
    (placePartition cmap rngB rngs name victims).map Prod.fst =
      victims.take (generateRandomPointsInCounty f victims.length rngB).length := by
  simp only [placePartition, h, List.map_map]
  have hcomp : (Prod.fst ∘ fun vp : α × Point => (vp.1, some vp.2)) = Prod.fst := rfl
  rw [hcomp, assignPositions_map_fst]

theorem placePartition_fallback {α : Type} (cmap : String → Option CountyFeature)
    (rngB : Nat → ℚ) (rngs : Nat → Nat → ℚ) (name : String)
    (victims : List α) (nf : CountyFeature) (h1 : cmap name = none)
    (h2 : cmap "nairobi" = some nf) :
    placePartition cmap rngB rngs name victims = placeFallback nf rngs 0 victims := by
  simp only [placePartition, h1, h2]

theorem p0FilterUnknown_not_mem (data : List P0Rec) (d : P0Rec)
    (h : d.county = "unknown") : d ∉ p0FilterUnknown data := by
  intro hmem
  have hpred := List.of_mem_filter hmem
  simp [h] at hpred

theorem p0AddRandomPoints_unresolved (cmap : String → Option CountyFeature)
    (rngs : Nat → Nat → ℚ) (fuel i : Nat) (d : P0Rec)
    (h : cmap (jsToLower d.county) = none) :
    p0AddRandomPoints cmap rngs fuel i [d] = [d] := by
  rw [p0AddRandomPoints, p0AddRandomPoints]
  simp [h]

theorem showPeopleData_mem (data : List P0Rec) (year : Option Nat) (d : P0Rec)
    (h : d ∈ showPeopleData data year) : d.randomPoint.isSome = true := by
  simp only [showPeopleData] at h
  have := List.of_mem_filter h
  simpa using this

theorem victimYear_ne_none_of_yearMatches (year : String) (d : VRecord)
    (h : yearMatches year d = true) : victimYear d ≠ none := by
  intro hn
  rw [yearMatches, hn] at h
  cases parseIntNat year <;> simp at h

theorem filterAll_eq (data : List VRecord) :
    filterDataByYearAndCounty data "all" "all" = data := by
  simp [filterDataByYearAndCounty]

theorem matchAtB_false_of_len_le (cs : List Char) (i : Nat)
    (h : cs.length ≤ i) : matchAtB cs i = false := by
  have hnone : cs[i]? = none := by
    rw [List.getElem?_eq_none_iff]
    exact h
  simp [matchAtB, hnone]

theorem lt_length_of_matchAtB (cs : List Char) (i : Nat)
    (h : matchAtB cs i = true) : i < cs.length := by
  by_contra hn
  push_neg at hn
  rw [matchAtB_false_of_len_le cs i hn] at h
  exact absurd h (by simp)

theorem yearValAt_isSome_of_matchAtB (cs : List Char) (i : Nat)
    (h : matchAtB cs i = true) : ∃ y, yearValAt cs i = some y := by
  simp only [matchAtB, Bool.and_eq_true] at h
  obtain ⟨⟨⟨⟨⟨h1, h2⟩, h3⟩, h4⟩, h5⟩, h6⟩ := h
  cases he2 : cs[i + 2]? with
  | none => rw [he2] at h3; exact absurd h3 (by simp)
  | some d1 =>
    cases he3 : cs[i + 3]? with
    | none => rw [he3] at h4; exact absurd h4 (by simp)
    | some d2 =>
      exact ⟨2000 + 10 * (d1.toNat - 48) + (d2.toNat - 48),
        by simp [yearValAt, he2, he3]⟩

theorem scanFrom_eq_none_iff (cs : List Char) :
    ∀ (fuel i : Nat), scanFrom cs i fuel = none ↔
      ∀ j, i ≤ j → j < i + fuel → matchAtB cs j = false := by
  intro fuel
  induction fuel with
  | zero =>
    intro i
    constructor
    · intro _ j h1 h2; omega
    · intro _; rw [scanFrom]
  | succ fuel ih =>
    intro i
    rw [scanFrom]
    cases hm : matchAtB cs i with
    | true =>
      simp only [hm, if_true]
      rcases yearValAt_isSome_of_matchAtB cs i hm with ⟨y, hy⟩
      rw [hy]
      constructor
      · intro h; exact absurd h (by simp)
      · intro h
        have := h i (le_refl i) (by omega)
        rw [hm] at this
        exact absurd this (by simp)
    | false =>
      simp only [hm, Bool.false_eq_true, if_false]
      rw [ih (i + 1)]
      constructor
      · intro h j hj1 hj2
        rcases eq_or_lt_of_le hj1 with rfl | hlt
        · exact hm
        · exact h j hlt (by omega)
      · intro h j hj1 hj2
        exact h j (by omega) (by omega)

theorem scanFrom_eq_some (cs : List Char) :
    ∀ (fuel i y : Nat), scanFrom cs i fuel = some y →
      ∃ j, i ≤ j ∧ j < i + fuel ∧ matchAtB cs j = true ∧
        yearValAt cs j = some y ∧ ∀ l, i ≤ l → l < j → matchAtB cs l = false := by
  intro fuel
  induction fuel with
  | zero => intro i y h; rw [scanFrom] at h; exact absurd h (by simp)
  | succ fuel ih =>
    intro i y h
    rw [scanFrom] at h
    cases hm : matchAtB cs i with
    | true =>
      rw [hm] at h
      simp only [if_true] at h
      refine ⟨i, le_refl i, by omega, hm, h, ?_⟩
      intro l h1 h2
      omega
    | false =>
      simp only [hm, Bool.false_eq_true, if_false] at h
      rcases ih (i + 1) y h with ⟨j, hj1, hj2, hj3, hj4, hj5⟩
      refine ⟨j, by omega, by omega, hj3, hj4, ?_⟩
      intro l hl1 hl2
      rcases eq_or_lt_of_le hl1 with rfl | hlt
      · exact hm
      · exact hj5 l hlt hl2

theorem scanFrom_first (cs : List Char) :
    ∀ (fuel i j : Nat), i ≤ j → j < i + fuel → matchAtB cs j = true →
      (∀ l, i ≤ l → l < j → matchAtB cs l = false) →
      scanFrom cs i fuel = yearValAt cs j := by
  intro fuel
  induction fuel with
  | zero => intro i j h1 h2 _ _; omega
  | succ fuel ih =>
    intro i j h1 h2 h3 h4
    rw [scanFrom]
    rcases eq_or_lt_of_le h1 with rfl | hlt
    · simp [h3]
    · have hmi : matchAtB cs i = false := h4 i (le_refl i) hlt
      simp only [hmi, Bool.false_eq_true, if_false]
      exact ih (i + 1) j hlt (by omega) h3 (fun l hl1 hl2 => h4 l (by omega) hl2)

theorem extractYear_eq_some_iff (s : String) (y : Nat) :
    extractYear s = some y ↔
      ¬(s = "" ∨ s = "Unknown") ∧
        ∃ i, matchAtB s.data i = true ∧ yearValAt s.data i = some y ∧
          ∀ j, j < i → matchAtB s.data j = false := by
  by_cases hg : s = "" ∨ s = "Unknown"
  · simp [extractYear, hg]
  · simp only [extractYear, findYearMatch]
    rw [if_neg hg]
    constructor
    · intro h
      rcases scanFrom_eq_some s.data s.data.length 0 y h with
        ⟨j, _, _, hj3, hj4, hj5⟩
      exact ⟨hg, j, hj3, hj4, fun l hl => hj5 l (Nat.zero_le l) hl⟩
    · rintro ⟨-, j, hj1, hj2, hj3⟩
      rw [scanFrom_first s.data s.data.length 0 j (Nat.zero_le j)
        (by simpa using lt_length_of_matchAtB s.data j hj1) hj1
        (fun l _ hl => hj3 l hl)]
      exact hj2

theorem extractYear_eq_none_iff (s : String) :
    extractYear s = none ↔
      s = "" ∨ s = "Unknown" ∨ ∀ i, matchAtB s.data i = false := by
  by_cases hg : s = "" ∨ s = "Unknown"
  · rcases hg with hg | hg <;> simp [extractYear, hg]
  · simp only [extractYear, findYearMatch]
    rw [if_neg hg, scanFrom_eq_none_iff]
    push_neg at hg
    constructor
    · intro h
      refine Or.inr (Or.inr ?_)
      intro i
      by_cases hi : i < s.data.length
      · exact h i (Nat.zero_le i) (by simpa using hi)
      · exact matchAtB_false_of_len_le s.data i (by omega)
    · rintro (h | h | h)
      · exact absurd h hg.1
      · exact absurd h hg.2
      · intro j _ _
        exact h j

/-! ## Claims -/

/-- Claim C1: every point returned by the polygon samplers
(`generateRandomPointsInCounty` in scripts.js, `randomPointInCounty` in
part_000) satisfies the point-in-polygon containment test of the county's
geometry (`d3.geoContains` true), not merely containment in its bounding
box: the loops accept a candidate only after that test succeeds. -/
theorem claim_c1_sampler_containment :
    (∀ (f : CountyFeature) (rng : Nat → ℚ) (n : Nat) (p : Point),
        p ∈ generateRandomPointsInCounty f n rng → f.geoContains p = true) ∧
    (∀ (f : CountyFeature) (rng : Nat → ℚ) (fuel : Nat) (p : Point),
        randomPointInCounty f rng fuel = some p → f.geoContains p = true) :=
  ⟨fun f rng n p h => generate_mem_contains f rng n p h,
   fun f rng fuel p h => randomPointLoop_some f rng fuel 0 p h⟩

/-- Witness for C1: a concrete feature, stream and count on which the
sampler returns the point `(0, 0)` and the containment test holds at it. -/
theorem claim_c1_witness :
    ((0 : ℚ), (0 : ℚ)) ∈ generateRandomPointsInCounty acceptAllFeature 1 zeroRng ∧
    acceptAllFeature.geoContains (0, 0) = true := by
  have hg : generateRandomPointsInCounty acceptAllFeature 1 zeroRng =
      [((0 : ℚ), (0 : ℚ))] := by
    rw [generate_one_accept acceptAllFeature zeroRng rfl]
    simp [candidate, acceptAllFeature, zeroRng]
  have hmem : ((0 : ℚ), (0 : ℚ)) ∈ generateRandomPointsInCounty acceptAllFeature 1 zeroRng := by
    rw [hg]
    exact List.mem_singleton.mpr rfl
  exact ⟨hmem,
    claim_c1_sampler_containment.1 acceptAllFeature zeroRng 1 (0, 0) hmem⟩

/-- Counterexample for C2: part_000's `randomPointInCounty` do-while loop is
not capped at `count * 100 = 100` attempts — on a feature whose containment
test rejects every candidate it is still looping after 101 attempts (the
fuelled embedding has produced no point and not exited). -/
theorem claim_c2_counterexample :
    randomPointInCounty rejectAllFeature zeroRng 101 = none := by
  unfold randomPointInCounty
  exact randomPointLoop_none rejectAllFeature zeroRng (fun _ => rfl) 101 0

/-- Claim C2 (amended): scripts.js `generateRandomPointsInCounty` returns at
most `numPoints` points, and when it returns fewer it has run exactly its
`numPoints * 100` allowed attempts — the result is precisely the accepted
candidates of those attempts, returned as a short list rather than an error.
part_000's `randomPointInCounty`, by contrast, is uncapped: on a feature
rejecting every candidate it never returns within any attempt budget. -/
theorem claim_c2_attempt_cap :
    (∀ (f : CountyFeature) (rng : Nat → ℚ) (n : Nat),
        (generateRandomPointsInCounty f n rng).length ≤ n) ∧
    (∀ (f : CountyFeature) (rng : Nat → ℚ) (n : Nat),
        (generateRandomPointsInCounty f n rng).length < n →
        generateRandomPointsInCounty f n rng = acceptedFrom f rng 0 (n * 100)) ∧
    (∀ (f : CountyFeature) (rng : Nat → ℚ) (fuel : Nat),
        (∀ a, f.geoContains (candidate f rng a) = false) →
        randomPointInCounty f rng fuel = none) := by
  refine ⟨?_, ?_, ?_⟩
  · intro f rng n
    exact sampleLoop_length_le f rng n (n * 100) 0 [] (Nat.zero_le n)
  · intro f rng n h
    unfold generateRandomPointsInCounty at h ⊢
    rw [sampleLoop_short f rng n (n * 100) 0 [] h]
    simp
  · intro f rng fuel hrej
    exact randomPointLoop_none f rng hrej fuel 0

/-- Witness for C2 (amended) at a concrete rejecting feature and stream. -/
theorem claim_c2_witness :
    generateRandomPointsInCounty rejectAllFeature 1 zeroRng =
      acceptedFrom rejectAllFeature zeroRng 0 (1 * 100) ∧
    randomPointInCounty rejectAllFeature zeroRng 5 = none := by
  constructor
  · apply claim_c2_attempt_cap.2.1 rejectAllFeature zeroRng 1
    unfold generateRandomPointsInCounty
    rw [sampleLoop_reject rejectAllFeature zeroRng 1 (fun _ => rfl)]
    simp
  · exact claim_c2_attempt_cap.2.2 rejectAllFeature zeroRng 5 (fun _ => rfl)

/-- Claim C3: when the sampler batch is shorter than the partition, the
placed set pairs exactly the first `points.length` records with exactly the
sampled points — excess records are excluded, and no placed record ever
carries a point outside the sampled list (no default/zero point). In
part_000, `showPeople` drops every record without a `randomPoint` from the
rendered set. -/
theorem claim_c3_short_batch_truncation :
    (∀ (α : Type) (victims : List α) (points : List Point),
        (assignPositions victims points).map Prod.fst =
          victims.take points.length) ∧
    (∀ (α : Type) (victims : List α) (points : List Point),
        (assignPositions victims points).map Prod.snd =
          points.take victims.length) ∧
    (∀ (α : Type) (victims : List α) (points : List Point) (vp : α × Point),
        vp ∈ assignPositions victims points → vp.2 ∈ points) ∧
    (∀ (cmap : String → Option CountyFeature) (rngB : Nat → ℚ)
        (rngs : Nat → Nat → ℚ) (name : String) (victims : List VRecord)
        (f : CountyFeature), cmap name = some f →
        (placePartition cmap rngB rngs name victims).map Prod.fst =
          victims.take (generateRandomPointsInCounty f victims.length rngB).length) ∧
    (∀ (data : List P0Rec) (year : Option Nat) (d : P0Rec),
        d ∈ showPeopleData data year → d.randomPoint.isSome = true) :=
  ⟨fun _ => assignPositions_map_fst,
   fun _ => assignPositions_map_snd,
   fun _ => assignPositions_mem_snd,
   fun cmap rngB rngs name victims f h =>
     placePartition_resolved cmap rngB rngs name victims f h,
   fun data year d h => showPeopleData_mem data year d h⟩

/-- Witness for C3 at concrete partitions and a concrete rendered record. -/
theorem claim_c3_witness :
    (placePartition cmapKisumuOnly zeroRng zeroRng2 "kisumu" [vrec0]).map Prod.fst =
      [vrec0].take (generateRandomPointsInCounty acceptAllFeature 1 zeroRng).length ∧
    placedRec.randomPoint.isSome = true ∧
    ((vrec0, ((0 : ℚ), (0 : ℚ))).2) ∈ [((0 : ℚ), (0 : ℚ))] :=
  ⟨claim_c3_short_batch_truncation.2.2.2.1 cmapKisumuOnly zeroRng zeroRng2
      "kisumu" [vrec0] acceptAllFeature rfl,
   claim_c3_short_batch_truncation.2.2.2.2 [placedRec] none placedRec (by decide),
   claim_c3_short_batch_truncation.2.2.1 VRecord [vrec0] [(0, 0)]
      (vrec0, (0, 0)) (by decide)⟩

/-- Counterexample for C4: in part_000, a record whose county key is
`"unknown"` (absent from the county map) is filtered out before placement
(line 243) — the pipeline output is empty, so no Nairobi fallback point is
looked up or attached, contradicting the claim for that variant even though
the map holds a `"nairobi"` entry. -/
theorem claim_c4_counterexample :
    p0AddRandomPoints cmapNairobiOnly zeroRng2 10 0
      (p0FilterUnknown [unknownCountyRec]) = [] := by decide

/-- Claim C4 (amended): in scripts.js `loadData`, a partition whose county
key has no map entry is placed through the `"nairobi"` fallback entry — each
record individually receives the head of a one-point sample from Nairobi's
polygon, every record is retained, and every attached point passes Nairobi's
containment test. part_000 has no such fallback: records with county
`"unknown"` are dropped before placement, and a record whose county key has
no map entry is passed through without any placement. -/
theorem claim_c4_fallback :
    (∀ (cmap : String → Option CountyFeature) (rngB : Nat → ℚ)
        (rngs : Nat → Nat → ℚ) (name : String) (victims : List VRecord)
        (nf : CountyFeature), cmap name = none → cmap "nairobi" = some nf →
        placePartition cmap rngB rngs name victims =
          placeFallback nf rngs 0 victims) ∧
    (∀ (nf : CountyFeature) (rngs : Nat → Nat → ℚ) (i : Nat)
        (victims : List VRecord),
        (placeFallback nf rngs i victims).map Prod.fst = victims) ∧
    (∀ (nf : CountyFeature) (rngs : Nat → Nat → ℚ) (i : Nat)
        (victims : List VRecord) (vp : VRecord × Option Point) (p : Point),
        vp ∈ placeFallback nf rngs i victims → vp.2 = some p →
        nf.geoContains p = true) ∧
    (∀ (data : List P0Rec) (d : P0Rec), d.county = "unknown" →
        d ∉ p0FilterUnknown data) ∧
    (∀ (cmap : String → Option CountyFeature) (rngs : Nat → Nat → ℚ)
        (fuel i : Nat) (d : P0Rec), cmap (jsToLower d.county) = none →
        p0AddRandomPoints cmap rngs fuel i [d] = [d]) :=
  ⟨fun cmap rngB rngs name victims nf h1 h2 =>
     placePartition_fallback cmap rngB rngs name victims nf h1 h2,
   fun nf rngs i victims => placeFallback_map_fst nf rngs i victims,
   fun nf rngs i victims vp p h hp =>
     placeFallback_mem_contains nf rngs i victims vp p h hp,
   fun data d h => p0FilterUnknown_not_mem data d h,
   fun cmap rngs fuel i d h => p0AddRandomPoints_unresolved cmap rngs fuel i d h⟩

/-- Witness for C4 (amended) at concrete maps, records and features. -/
theorem claim_c4_witness :
    placePartition cmapNairobiOnly zeroRng zeroRng2 "mombasa" [vrec0] =
      placeFallback acceptAllFeature zeroRng2 0 [vrec0] ∧
    acceptAllFeature.geoContains (0, 0) = true ∧
    unknownCountyRec ∉ p0FilterUnknown [unknownCountyRec] :=
  ⟨claim_c4_fallback.1 cmapNairobiOnly zeroRng zeroRng2 "mombasa" [vrec0]
      acceptAllFeature rfl rfl,
   by
     have hg : generateRandomPointsInCounty acceptAllFeature 1 (zeroRng2 0) =
         [((0 : ℚ), (0 : ℚ))] := by
       rw [generate_one_accept acceptAllFeature (zeroRng2 0) rfl]
       simp [candidate, acceptAllFeature, zeroRng2]
     have hmem : (vrec0, some ((0 : ℚ), (0 : ℚ))) ∈
         placeFallback acceptAllFeature zeroRng2 0 [vrec0] := by
       rw [placeFallback, placeFallback, hg]
       simp
     exact claim_c4_fallback.2.2.1 acceptAllFeature zeroRng2 0 [vrec0]
       (vrec0, some (0, 0)) (0, 0) hmem rfl,
   claim_c4_fallback.2.2.2.1 [unknownCountyRec] unknownCountyRec rfl⟩

/-- Claim C5: county inference is first-match-in-list. `jsFind` (the JS
`Array.find` both variants use) returns the first list element satisfying
the predicate — everything before it fails the predicate; scripts.js then
stores the capitalized match for a record with `"Unknown"` county and
nonempty location, and part_000's `extractAndAppendCounty` yields the first
county name whose lowercase form the lowercased location includes. The
record with location "Eldoret town centre" and unknown county resolves to
"Eldoret". -/
theorem claim_c5_first_match :
    (∀ (p : String → Bool) (l : List String) (x : String),
        jsFind p l = some x →
        ∃ pre post, l = pre ++ x :: post ∧ p x = true ∧
          ∀ y ∈ pre, p y = false) ∧
    (∀ (r : VRecord) (c : String), r.County = "Unknown" → r.Location ≠ "" →
        jsFind (fun c2 => strIncludes (jsToLower r.Location) c2)
          scriptsCountyNames = some c →
        (fixCounty r).County = capFirst c) ∧
    (∀ (names : List String) (loc c : String),
        extractAndAppendCountyEntry names loc = c → c ≠ "unknown" →
        ∃ pre post, names = pre ++ c :: post ∧
          strIncludes (jsToLower loc) (jsToLower c) = true ∧
          ∀ y ∈ pre, strIncludes (jsToLower loc) (jsToLower y) = false) ∧
    (fixCounty eldoretRecord).County = "Eldoret" := by
  refine ⟨fun p l x h => jsFind_eq_some_first p l x h, ?_, ?_, by decide⟩
  · intro r c h1 h2 h3
    simp only [fixCounty]
    rw [if_pos ⟨h1, h2⟩, h3]
  · intro names loc c h1 h2
    unfold extractAndAppendCountyEntry at h1
    cases hf : jsFind (fun n => strIncludes (jsToLower loc) (jsToLower n)) names with
    | none =>
      rw [hf] at h1
      simp only at h1
      exact absurd h1.symm h2
    | some w =>
      rw [hf] at h1
      simp only at h1
      subst h1
      rcases jsFind_eq_some_first _ names w hf with ⟨pre, post, hl, hx, hpre⟩
      exact ⟨pre, post, hl, by simpa using hx,
        fun y hy => by simpa using hpre y hy⟩

/-- Witness for C5: applying the inference step to the Eldoret record. -/
theorem claim_c5_witness :
    (fixCounty eldoretRecord).County = capFirst "eldoret" :=
  claim_c5_first_match.2.1 eldoretRecord "eldoret" rfl (by decide) (by decide)

/-- Counterexample for C6: for the date string "Incident on 14 March 2024"
the 4-digit-starting-with-"20" pattern yields 2024 (and scripts.js
`extractYear` returns it), but part_000's `extractTheYear` — also cited by
the claim — returns the unknown-year sentinel, because 2024 is not among its
configured year substrings 2021-2023. -/
theorem claim_c6_counterexample :
    extractTheYearEntry p0Years "Incident on 14 March 2024" = none ∧
    extractYear "Incident on 14 March 2024" = some 2024 := by decide

/-- Claim C6 (amended): scripts.js `extractYear` returns exactly the year of
the leftmost `\b20\d{2}\b` match and the sentinel when no position matches
(or on empty/"Unknown" input); part_000's `extractTheYear` instead returns
the first configured year string (2021-2023) occurring as a substring of the
date, parsed, and the sentinel when none occurs. Both yield 2022 on
"Incident on 14 March 2022" and the sentinel on "Unknown". -/
theorem claim_c6_year_extraction :
    (∀ (s : String) (y : Nat), extractYear s = some y ↔
        ¬(s = "" ∨ s = "Unknown") ∧
          ∃ i, matchAtB s.data i = true ∧ yearValAt s.data i = some y ∧
            ∀ j, j < i → matchAtB s.data j = false) ∧
    (∀ s : String, extractYear s = none ↔
        s = "" ∨ s = "Unknown" ∨ ∀ i, matchAtB s.data i = false) ∧
    (∀ (years : List String) (date : String) (y : Nat),
        extractTheYearEntry years date = some y →
        ∃ w ∈ years, strIncludes date w = true ∧ parseIntNat w = some y) ∧
    (∀ (years : List String) (date : String),
        (∀ w ∈ years, strIncludes date w = false) →
        extractTheYearEntry years date = none) ∧
    (extractYear "Incident on 14 March 2022" = some 2022 ∧
      extractTheYearEntry p0Years "Incident on 14 March 2022" = some 2022 ∧
      extractYear "Unknown" = none ∧
      extractTheYearEntry p0Years "Unknown" = none) := by
  refine ⟨extractYear_eq_some_iff, extractYear_eq_none_iff, ?_, ?_, by decide⟩
  · intro years date y h
    unfold extractTheYearEntry at h
    cases hf : jsFind (fun w => strIncludes date w) years with
    | none => rw [hf] at h; exact absurd h (by simp)
    | some w =>
      rw [hf] at h
      simp only at h
      cases hp : parseIntNat w with
      | none => rw [hp] at h; exact absurd h (by simp)
      | some v =>
        rw [hp] at h
        simp only at h
        by_cases hv : v = 0
        · rw [if_pos hv] at h; exact absurd h (by simp)
        · rw [if_neg hv] at h
          injection h with h
          subst h
          rcases jsFind_eq_some_first _ years w hf with ⟨pre, post, hl, hx, -⟩
          refine ⟨w, ?_, by simpa using hx, hp⟩
          rw [hl]
          exact List.mem_append.mpr (Or.inr (List.mem_cons_self w post))
  · intro years date h
    unfold extractTheYearEntry
    rw [jsFind_eq_none (fun w => strIncludes date w) years (by simpa using h)]

/-- Witness for C6 (amended) at a concrete date string. -/
theorem claim_c6_witness :
    ∃ w ∈ p0Years, strIncludes "a 2022 b" w = true ∧ parseIntNat w = some 2022 :=
  claim_c6_year_extraction.2.2.1 p0Years "a 2022 b" 2022 (by decide)

/-- Claim C7: for every selected year other than "all", the year filter of
`filterDataByYearAndCounty` excludes every record whose year is the
unknown-year sentinel (`victimYear d = none`, i.e. date/year parse failure),
and with both selectors "all" every record — in particular every
unknown-year record — is retained. -/
theorem claim_c7_unknown_year_filter :
    (∀ (data : List VRecord) (year county : String) (d : VRecord),
        year ≠ "all" → d ∈ filterDataByYearAndCounty data year county →
        victimYear d ≠ none) ∧
    (∀ (data : List VRecord) (d : VRecord), victimYear d = none →
        d ∈ data → d ∈ filterDataByYearAndCounty data "all" "all") := by
  constructor
  · intro data year county d hy hmem
    simp only [filterDataByYearAndCounty] at hmem
    rw [if_pos hy] at hmem
    by_cases hc : county ≠ "all"
    · rw [if_pos hc] at hmem
      exact victimYear_ne_none_of_yearMatches year d
        (List.of_mem_filter (List.mem_of_mem_filter hmem))
    · rw [if_neg hc] at hmem
      exact victimYear_ne_none_of_yearMatches year d (List.of_mem_filter hmem)
  · intro data d _ hmem
    rw [filterAll_eq]
    exact hmem

/-- Witness for C7: a record with a known year passes the 2022 filter and
has a non-sentinel year; an unknown-year record is retained by the
all-years view. -/
theorem claim_c7_witness :
    victimYear year2022Record ≠ none ∧
    unknownYearRecord ∈ filterDataByYearAndCounty [unknownYearRecord] "all" "all" :=
  ⟨claim_c7_unknown_year_filter.1 [year2022Record] "2022" "all" year2022Record
      (by decide) (by decide),
   claim_c7_unknown_year_filter.2 [unknownYearRecord] unknownYearRecord
      (by decide) (List.mem_singleton.mpr rfl)⟩

/-- Claim C8: in the `clicked` state machine of part_000, re-selecting the
currently zoomed county resets the transform to the identity and returns to
Overview (toggle); from Overview, focusing a county and immediately
re-focusing it returns to Overview; selecting a different county while
focused applies that county's fit transform (exactly as if focused from
Overview) instead of toggling out. -/
theorem claim_c8_zoom_toggle :
    (∀ (mw mh : ℚ) (s : ZoomState) (d : CountyPath),
        s.currentZoomedCounty = some d.shapeName →
        clicked mw mh s d = ⟨none, zoomIdentity⟩) ∧
    (∀ (mw mh : ℚ) (s : ZoomState) (d : CountyPath),
        s.currentZoomedCounty = none →
        clicked mw mh (clicked mw mh s d) d = ⟨none, zoomIdentity⟩) ∧
    (∀ (mw mh : ℚ) (s : ZoomState) (d dp : CountyPath),
        s.currentZoomedCounty = some d.shapeName → dp.shapeName ≠ d.shapeName →
        clicked mw mh s dp = clicked mw mh ⟨none, zoomIdentity⟩ dp ∧
        (clicked mw mh s dp).currentZoomedCounty = some dp.shapeName ∧
        (clicked mw mh s dp).transform = fitTransform mw mh dp) := by
  refine ⟨?_, ?_, ?_⟩
  · intro mw mh s d h
    simp [clicked, h]
  · intro mw mh s d h
    simp [clicked, h]
  · intro mw mh s d dp h hne
    have hcond : ¬(s.currentZoomedCounty = some dp.shapeName) := by
      rw [h]
      intro he
      exact hne (Option.some_injective String he).symm
    refine ⟨?_, ?_, ?_⟩ <;> simp [clicked, hcond]

/-- Witness for C8 at concrete counties and states. -/
theorem claim_c8_witness :
    clicked 100 100 focusedA countyA = ⟨none, zoomIdentity⟩ ∧
    clicked 100 100 (clicked 100 100 overviewState countyA) countyA =
      ⟨none, zoomIdentity⟩ ∧
    (clicked 100 100 focusedA countyB).currentZoomedCounty =
      some countyB.shapeName :=
  ⟨claim_c8_zoom_toggle.1 100 100 focusedA countyA rfl,
   claim_c8_zoom_toggle.2.1 100 100 overviewState countyA rfl,
   (claim_c8_zoom_toggle.2.2 100 100 focusedA countyA countyB rfl
      (by decide)).2.1⟩

/-- Claim C9: the zoom scale, clamped by the configured scaleExtent, stays
in the closed bound [1, 10], and the recomputed point radius equals
`max(2, min(4 / k, 10))` and therefore lies in the closed range [2, 10] for
every update. -/
theorem claim_c9_radius_bounds :
    ∀ kreq : ℚ,
      1 ≤ applyScaleExtent kreq ∧ applyScaleExtent kreq ≤ 10 ∧
      2 ≤ zoomedRadius kreq ∧ zoomedRadius kreq ≤ 10 ∧
      zoomedRadius kreq = max 2 (min (4 / applyScaleExtent kreq) 10) := by
  intro kreq
  refine ⟨le_max_left 1 _,
    max_le (by norm_num) (min_le_right kreq 10), ?_, ?_, ?_⟩
  · simp only [zoomedRadius, calculateRadius, MIN_RADIUS]
    exact le_max_left 2 _
  · simp only [zoomedRadius, calculateRadius, MIN_RADIUS, MAX_RADIUS]
    exact max_le (by norm_num) (min_le_right _ 10)
  · simp only [zoomedRadius, calculateRadius, MIN_RADIUS, MAX_RADIUS]

/-- Claim C10: `filterDataByYearAndCounty` with both selectors "all" is the
identity on the record list, and for every year/county pair its result is an
order-preserving sublist of the input. -/
theorem claim_c10_filter_identity_sublist :
    (∀ data : List VRecord, filterDataByYearAndCounty data "all" "all" = data) ∧
    (∀ (data : List VRecord) (year county : String),
        List.Sublist (filterDataByYearAndCounty data year county) data) := by
  constructor
  · exact filterAll_eq
  · intro data year county
    simp only [filterDataByYearAndCounty]
    by_cases h2 : county ≠ "all"
    · rw [if_pos h2]
      by_cases h1 : year ≠ "all"
      · rw [if_pos h1]
        exact (List.filter_sublist _).trans (List.filter_sublist _)
      · rw [if_neg h1]
        exact List.filter_sublist _
    · rw [if_neg h2]
      by_cases h1 : year ≠ "all"
      · rw [if_pos h1]
        exact List.filter_sublist _
      · rw [if_neg h1]

end KillingsKE

